import Mathlib

/-!
Shallow embedding of `src/download_sentinel1.py`, a CLI utility that queries
the Copernicus catalog for Sentinel-1 products, optionally checks each
result's online status, and optionally downloads results.

External effects (environment lookups, API session construction, remote
search / per-item status / download calls, `print`) are recorded in an event
trace; the external sentinelsat API is an oracle packaged in a `World`
record.  Python exceptions (`KeyError`, `AssertionError`, `NameError`,
`SystemExit` from `parser.error`, `ValueError` from date parsing) are
modelled with an `Except` error type.
-/

namespace Sentinel1

/-- A calendar date, the result of `pd.to_datetime(s, format='%Y%m%d')`. -/
structure Date where
  year : Nat
  month : Nat
  day : Nat
deriving DecidableEq, Repr

/-- Leap-year test of the Gregorian calendar (pandas validates real dates). -/
def isLeap (y : Nat) : Bool :=
  (y % 4 == 0 && y % 100 != 0) || (y % 400 == 0)

/-- Number of days of month `m` in year `y`. -/
def daysInMonth (y m : Nat) : Nat :=
  if m == 2 then (if isLeap y then 29 else 28)
  else if m == 4 || m == 6 || m == 9 || m == 11 then 30
  else 31

/-- Digits of a string segment to a number, `none` on a non-digit. -/
def digitsToNat (l : List Char) : Option Nat :=
  if l.all Char.isDigit then
    some (l.foldl (fun a c => a * 10 + (c.toNat - 48)) 0)
  else none

/-- `pd.to_datetime(s, format='%Y%m%d')`: eight digits, calendar-valid. -/
def parseDate (s : String) : Option Date :=
  let cs := s.toList
  if cs.length == 8 then
    match digitsToNat (cs.take 4), digitsToNat ((cs.drop 4).take 2),
        digitsToNat (cs.drop 6) with
    | some y, some m, some d =>
        if 1 ≤ m && m ≤ 12 && 1 ≤ d && d ≤ daysInMonth y m then
          some ⟨y, m, d⟩
        else none
    | _, _, _ => none
  else none

/-- Chronological strict order on dates (`Timestamp.__lt__`). -/
def Date.lt (a b : Date) : Bool :=
  a.year < b.year ||
    (a.year == b.year &&
      (a.month < b.month || (a.month == b.month && a.day < b.day)))

/-- Zero-pad a number to two digits, as `str(Timestamp)` renders months/days. -/
def pad2 (n : Nat) : String :=
  if n < 10 then "0" ++ toString n else toString n

/-- Zero-pad a number to four digits, as `str(Timestamp)` renders years. -/
def pad4 (n : Nat) : String :=
  if n < 10 then "000" ++ toString n
  else if n < 100 then "00" ++ toString n
  else if n < 1000 then "0" ++ toString n
  else toString n

/-- `str(pd.Timestamp(date))`, the rendering interpolated into the assertion
message: `YYYY-MM-DD 00:00:00`. -/
def renderTs (d : Date) : String :=
  pad4 d.year ++ "-" ++ pad2 d.month ++ "-" ++ pad2 d.day ++ " 00:00:00"

/-- Python truthiness of an optional string argument: `None` and `""` are
falsy, every other string is truthy. -/
def truthy : Option String → Bool
  | none => false
  | some s => s != ""

/-- One row of the result table returned by `api.to_dataframe`: the columns
the script reads (`title`, `uuid`, `beginposition`). -/
structure ProductRecord where
  title : String
  uuid : String
  beginposition : Date
deriving DecidableEq, Repr

/-- The fields of `api.get_product_odata(uuid)` that the script reads. -/
structure OData where
  title : String
  online : Bool
deriving DecidableEq, Repr

/-- Observable effects of a run, in program order.  `print(msg, '\n')` is
recorded as `printed msg` (the cosmetic `'\n'` second argument is dropped);
`parser.error` carries its message in the `Err` value instead. -/
inductive Event where
  | envLookup (key : String)
  | apiSession
  | readFootprint (path : String)
  | searchCall (footprint : String) (dates : String × String)
      (keywords : List (String × Option String))
  | odataCall (uuid : String)
  | downloadApiCall (uuid : String) (output : String)
  | printed (msg : String)
deriving DecidableEq, Repr

/-- Python exceptions the script can raise, uncaught. -/
inductive Err where
  | keyError (key : String)
  | assertionError (msg : String)
  | nameError (name : String)
  | valueError (msg : String)
  | systemExit (msg : String)
deriving DecidableEq, Repr

/-- The external world: environment variables and the opaque sentinelsat
API collaborator (search result table, per-uuid OData metadata), plus the
footprint file contents as WKT (`geojson_to_wkt(read_geojson(path))`). -/
structure World where
  env : String → Option String
  wkt : String → String
  search : String → String × String → List (String × Option String) →
      List ProductRecord
  odata : String → OData

/-- Is an event a remote search call? -/
def Event.isSearch : Event → Bool
  | .searchCall _ _ _ => true
  | _ => false

/-- Is an event a download call? -/
def Event.isDownload : Event → Bool
  | .downloadApiCall _ _ => true
  | _ => false

/-- Is an event a per-item OData status call? -/
def Event.isOdata : Event → Bool
  | .odataCall _ => true
  | _ => false

/-- The assertion message of `query`:
`f"The start date {d1} must be smaller than the end date {d2}"`. -/
def assertMsg (d1 d2 : Date) : String :=
  "The start date " ++ renderTs d1 ++ " must be smaller than the end date "
    ++ renderTs d2

/-- `f'{n} scenes have been found in total'`. -/
def countMsg (n : Nat) : String :=
  toString n ++ " scenes have been found in total"

/-- The keyword arguments attached to `api.query` beyond footprint and date,
chosen by the four-way branch of `query` (lines 109-139).  The first branch
tests `is None`; the second and third test Python truthiness. -/
def queryKeywords (prodType passDirection : Option String) :
    List (String × Option String) :=
  if prodType.isNone && passDirection.isNone then
    [("platformname", some "Sentinel-1")]
  else if truthy passDirection && !truthy prodType then
    [("platformname", some "Sentinel-1"), ("orbitdirection", passDirection)]
  else if truthy prodType && !truthy passDirection then
    [("platformname", some "Sentinel-1"), ("producttype", prodType)]
  else
    [("platformname", some "Sentinel-1"), ("producttype", prodType),
      ("orbitdirection", passDirection)]

/-- Spec-side definition, for the refinement comparison: "exactly the filter
keywords that are present" — `platformname` always, `producttype` exactly
when a product type is present, `orbitdirection` exactly when a pass
direction is present. -/
def specSearchKeywords (prodType passDirection : Option String) :
    List (String × Option String) :=
  [("platformname", some "Sentinel-1")] ++
    (if prodType.isSome then [("producttype", prodType)] else []) ++
    (if passDirection.isSome then [("orbitdirection", passDirection)] else [])

/-- The `query` function (lines 78-140): credential lookup, session
construction, footprint read, date-frame construction and ordering
assertion, the four-way filtered search, count print, result table. -/
def query (w : World) (footprintPath startDate endDate : String)
    (prodType passDirection : Option String) :
    Except Err (List ProductRecord) × List Event :=
  match w.env "user" with
  | none => (.error (.keyError "user"), [.envLookup "user"])
  | some _ =>
    match w.env "password" with
    | none => (.error (.keyError "password"),
        [.envLookup "user", .envLookup "password"])
    | some _ =>
      let footprint := w.wkt footprintPath
      let hdr : List Event := [.envLookup "user", .envLookup "password",
        .apiSession, .readFootprint footprintPath]
      match parseDate startDate, parseDate endDate with
      | some d1, some d2 =>
        if Date.lt d1 d2 then
          let kws := queryKeywords prodType passDirection
          let ps := w.search footprint (startDate, endDate) kws
          (.ok ps, hdr ++ [.searchCall footprint (startDate, endDate) kws,
            .printed (countMsg ps.length)])
        else
          (.error (.assertionError (assertMsg d1 d2)), hdr)
      | _, _ => (.error (.valueError "time data does not match format"), hdr)

/-- Titles accumulated in `products_online` by the loop of `is_online`
(lines 155-166): the OData title of each record whose OData reports it
online, in result-set iteration order. -/
def onlineTitles (w : World) (products : List ProductRecord) : List String :=
  (products.filter (fun r => (w.odata r.uuid).online)).map
    (fun r => (w.odata r.uuid).title)

/-- Titles accumulated in `products_offline` by the loop of `is_online`. -/
def offlineTitles (w : World) (products : List ProductRecord) : List String :=
  (products.filter (fun r => !(w.odata r.uuid).online)).map
    (fun r => (w.odata r.uuid).title)

/-- `f" All products requested({n}) are online"` (leading space in source). -/
def allOnlineMsg (n : Nat) : String :=
  " All products requested(" ++ toString n ++ ") are online"

/-- `f"All products requested ({n}) are offline"`. -/
def allOfflineMsg (n : Nat) : String :=
  "All products requested (" ++ toString n ++ ") are offline"

/-- `f"{a} online and {b} offline products have been found"`. -/
def mixedMsg (a b : Nat) : String :=
  toString a ++ " online and " ++ toString b ++
    " offline products have been found"

/-- The `is_online` function (lines 143-185): credential lookup, session,
one OData status call per record, partition of OData titles into online and
offline lists, then the three-way summary/title printing. -/
def isOnlineRun (w : World) (products : List ProductRecord) :
    Except Err Unit × List Event :=
  match w.env "user" with
  | none => (.error (.keyError "user"), [.envLookup "user"])
  | some _ =>
    match w.env "password" with
    | none => (.error (.keyError "password"),
        [.envLookup "user", .envLookup "password"])
    | some _ =>
      let hdr : List Event := [.envLookup "user", .envLookup "password",
        .apiSession]
      let loop := products.map (fun r => Event.odataCall r.uuid)
      let onl := onlineTitles w products
      let ofl := offlineTitles w products
      let prints : List Event :=
        if ofl.length == 0 && decide (0 < onl.length) then
          Event.printed (allOnlineMsg onl.length) :: onl.map Event.printed
        else if decide (0 < ofl.length) && onl.length == 0 then
          Event.printed (allOfflineMsg ofl.length) :: ofl.map Event.printed
        else
          Event.printed (mixedMsg onl.length ofl.length) ::
            Event.printed "Online products" ::
              (onl.map Event.printed ++
                (Event.printed "offline products" :: ofl.map Event.printed))
      (.ok (), hdr ++ loop ++ prints)

/-- `'Product {} is online.'.format(title)`. -/
def onlineNoticeMsg (title : String) : String :=
  "Product " ++ title ++ " is online."

/-- `'Product {} is not online.'.format(title)`, the skip notice. -/
def skipNoticeMsg (title : String) : String :=
  "Product " ++ title ++ " is not online."

/-- The per-record loop of `download` (lines 202-212): one OData status call
per record, then either a notice print and one `api.download(uuid, output)`
call (online) or a skip-notice print (offline). -/
def downloadBody (w : World) (output : String) :
    List ProductRecord → List Event
  | [] => []
  | r :: rest =>
    let m := w.odata r.uuid
    (Event.odataCall r.uuid ::
      (if m.online then
        [Event.printed (onlineNoticeMsg m.title),
          Event.downloadApiCall r.uuid output]
      else
        [Event.printed (skipNoticeMsg m.title)])) ++ downloadBody w output rest

/-- The `download` function (lines 188-212): credential lookup, session,
then the per-record loop. -/
def downloadRun (w : World) (products : List ProductRecord)
    (output : String) : Except Err Unit × List Event :=
  match w.env "user" with
  | none => (.error (.keyError "user"), [.envLookup "user"])
  | some _ =>
    match w.env "password" with
    | none => (.error (.keyError "password"),
        [.envLookup "user", .envLookup "password"])
    | some _ =>
      let hdr : List Event := [.envLookup "user", .envLookup "password",
        .apiSession]
      (.ok (), hdr ++ downloadBody w output products)

/-- The parsed command-line arguments (lines 217-277).  String-valued flags
default to `None`; `store_true` flags default to false. -/
structure Args where
  outdir : Option String
  footprint : Option String
  startDate : Option String
  endDate : Option String
  productType : Option String
  passDirection : Option String
  download : Bool
  online : Bool
deriving DecidableEq, Repr

/-- `parser.error` message for a missing footprint (lines 280-282). -/
def footprintErrMsg : String :=
  "Please provide a path to the footprint file(use option -aoi) to be used " ++
    "as AOI for searching S1 data. The file format can be either Geojson " ++
    "or shapefile"

/-- `parser.error` message for missing dates (lines 285-286). -/
def dateErrMsg : String :=
  "Please provide a start and an end date to search for data"

/-- Invalid product-type message (lines 290-291). -/
def invalidProdMsg (pt : String) : String :=
  "The product specified " ++ pt ++ " does not exist." ++
    " Valid products: GRD, SLC or OCN"

/-- Invalid pass-direction message (lines 301-302). -/
def invalidOrbitMsg (pd : String) : String :=
  "The orbit specified " ++ pd ++ " does not exist." ++
    " Valid orbits: ascending or descending"

/-- Invalid combined-filter message (lines 317-319). -/
def invalidComboMsg : String :=
  "Please make sure valid product types and valid orbits have been " ++
    "specified \n Valid orbits: ascending or descending \n valid " ++
    "products: GRD, SLC and OCN"

/-- Is the string one of the valid product types (line 289)? -/
def validProd (s : String) : Bool :=
  s == "GRD" || s == "SLC" || s == "OCN"

/-- Is the string one of the valid orbits (line 300)? -/
def validOrbit (s : String) : Bool :=
  s == "ascending" || s == "descending"

/-- The validation-and-query stage of `__main__` (lines 279-329):
`parser.error` on a missing footprint or missing dates; otherwise the
truthiness-based filter chain, which either prints an invalid-value message
leaving `products` unbound (`.ok none`), or calls `query` (`.ok (some ps)`
on success, propagating its exception otherwise). -/
def validateAndQuery (w : World) (a : Args) :
    Except Err (Option (List ProductRecord)) × List Event :=
  if !truthy a.footprint then
    (.error (.systemExit footprintErrMsg), [])
  else
    let fp := a.footprint.getD ""
    if !truthy a.startDate || !truthy a.endDate then
      (.error (.systemExit dateErrMsg), [])
    else
      let s := a.startDate.getD ""
      let e := a.endDate.getD ""
      let wrap : Except Err (List ProductRecord) × List Event →
          Except Err (Option (List ProductRecord)) × List Event :=
        fun q => (q.1.map some, q.2)
      if truthy a.productType && !truthy a.passDirection then
        if !validProd (a.productType.getD "") then
          (.ok none, [.printed (invalidProdMsg (a.productType.getD ""))])
        else
          wrap (query w fp s e a.productType none)
      else if truthy a.passDirection && !truthy a.productType then
        if !validOrbit (a.passDirection.getD "") then
          (.ok none, [.printed (invalidOrbitMsg (a.passDirection.getD ""))])
        else
          wrap (query w fp s e none a.passDirection)
      else if truthy a.passDirection && truthy a.productType then
        if !validOrbit (a.passDirection.getD "") ||
            !validProd (a.productType.getD "") then
          (.ok none, [.printed invalidComboMsg])
        else
          wrap (query w fp s e a.productType a.passDirection)
      else
        wrap (query w fp s e none none)

/-- The full `__main__` flow (lines 279-339): validation and query, then the
optional online check, then the optional download, to the current working
directory `cwd` when `--outdir` is falsy.  Referencing the unbound local
`products` raises `NameError`. -/
def mainRun (w : World) (cwd : String) (a : Args) :
    Except Err Unit × List Event :=
  match validateAndQuery w a with
  | (.error err, tr) => (.error err, tr)
  | (.ok prodOpt, tr) =>
    let step2 : Except Err Unit × List Event :=
      if a.online then
        match prodOpt with
        | none => (.error (.nameError "products"), [])
        | some ps => isOnlineRun w ps
      else (.ok (), [])
    match step2 with
    | (.error err, tr2) => (.error err, tr ++ tr2)
    | (.ok (), tr2) =>
      let step3 : Except Err Unit × List Event :=
        if a.download && !truthy a.outdir then
          match prodOpt with
          | none => (.error (.nameError "products"), [])
          | some ps => downloadRun w ps cwd
        else if a.download && truthy a.outdir then
          match prodOpt with
          | none => (.error (.nameError "products"), [])
          | some ps => downloadRun w ps (a.outdir.getD "")
        else (.ok (), [])
      (step3.1, tr ++ tr2 ++ step3.2)

/-! Concrete worlds and argument vectors used to instantiate the theorems. -/

/-- An environment with both credentials set. -/
def envEx : String → Option String := fun k =>
  if k == "user" then some "alice"
  else if k == "password" then some "s3cret"
  else none

/-- A two-row result table: one online product, one offline product. -/
def psEx : List ProductRecord :=
  [⟨"S1A_IW_GRDH_T001", "uuid-1", ⟨2019, 2, 3⟩⟩,
   ⟨"S1B_IW_GRDH_T002", "uuid-2", ⟨2019, 3, 4⟩⟩]

/-- OData metadata for `psEx`: `uuid-1` online, `uuid-2` offline. -/
def odataEx : String → OData := fun u =>
  if u == "uuid-1" then ⟨"S1A_IW_GRDH_T001", true⟩
  else if u == "uuid-2" then ⟨"S1B_IW_GRDH_T002", false⟩
  else ⟨"unknown", false⟩

/-- A concrete world: credentials set, every search returns `psEx`. -/
def wEx : World :=
  { env := envEx
    wkt := fun p => "POLYGON(" ++ p ++ ")"
    search := fun _ _ _ => psEx
    odata := odataEx }

/-- A world in which the `user` environment variable is unset. -/
def wNoUser : World := { wEx with env := fun _ => none }

/-- A world in which only the `password` environment variable is unset. -/
def wNoPass : World :=
  { wEx with env := fun k => if k == "user" then some "alice" else none }

/-- A fully valid invocation with no optional filters. -/
def argsBase : Args :=
  { outdir := none, footprint := some "aoi/AOI.geojson",
    startDate := some "20190201", endDate := some "20190816",
    productType := none, passDirection := none,
    download := false, online := false }

/-- An invocation missing the footprint argument. -/
def argsNoFp : Args := { argsBase with footprint := none }

/-- An invocation missing the start date. -/
def argsNoStart : Args := { argsBase with startDate := none }

/-- An invocation missing the end date. -/
def argsNoEnd : Args := { argsBase with endDate := none }

/-- A valid invocation with the download flag set and no output directory. -/
def argsDownload : Args := { argsBase with download := true }

/-- The trace of the validation-and-query stage on `wEx`, `argsDownload`. -/
def trQuery : List Event :=
  [.envLookup "user", .envLookup "password", .apiSession,
   .readFootprint "aoi/AOI.geojson",
   .searchCall "POLYGON(aoi/AOI.geojson)" ("20190201", "20190816")
     [("platformname", some "Sentinel-1")],
   .printed (countMsg 2)]

/-! Theorems for the specification claims. -/

/-- C1: for every pair of dates with start date ≥ end date (parsed dates not
strictly increasing), `query` raises an assertion failure whose message
contains both dates, and its trace contains no remote search call. -/
theorem query_rejects_unordered_dates (w : World) (fp s e : String)
    (pt pdir : Option String) (u p : String)
    (hu : w.env "user" = some u) (hp : w.env "password" = some p)
    (d1 d2 : Date) (h1 : parseDate s = some d1) (h2 : parseDate e = some d2)
    (hord : Date.lt d1 d2 = false) :
    (query w fp s e pt pdir).1 = .error (.assertionError (assertMsg d1 d2)) ∧
    (∃ pre mid, assertMsg d1 d2
        = pre ++ renderTs d1 ++ (mid ++ renderTs d2)) ∧
    (query w fp s e pt pdir).2.filter Event.isSearch = [] := by
  unfold query
  simp only [hu, hp, h1, h2, hord, Bool.false_eq_true, if_false]
  refine ⟨by trivial, ⟨"The start date ",
    " must be smaller than the end date ", ?_⟩, by trivial⟩
  exact String.append_assoc _ _ _

/-- Witness for C1 at a concrete reversed date pair. -/
theorem query_rejects_unordered_dates_witness :
    (query wEx "aoi/AOI.geojson" "20190816" "20190201" none none).1
        = .error (.assertionError (assertMsg ⟨2019, 8, 16⟩ ⟨2019, 2, 1⟩)) ∧
    (∃ pre mid, assertMsg ⟨2019, 8, 16⟩ ⟨2019, 2, 1⟩
        = pre ++ renderTs ⟨2019, 8, 16⟩ ++ (mid ++ renderTs ⟨2019, 2, 1⟩)) ∧
    (query wEx "aoi/AOI.geojson" "20190816" "20190201" none none).2.filter
        Event.isSearch = [] :=
  query_rejects_unordered_dates wEx "aoi/AOI.geojson" "20190816" "20190201"
    none none "alice" "s3cret" rfl rfl ⟨2019, 8, 16⟩ ⟨2019, 2, 1⟩
    (by decide) (by decide) (by decide)

/-- C10: with `user` (resp. `password`) unset, each of `query`, `is_online`
and `download` stops with an uncaught `KeyError` at the credential lookup,
before date validation and before any remote call (the trace holds only the
environment lookups); with both set, each of the three operations reads both
credentials and constructs its own fresh API session first. -/
theorem missing_credentials_fail_first (w : World) (fp s e : String)
    (pt pdir : Option String) (products : List ProductRecord) (out : String) :
    (w.env "user" = none →
      query w fp s e pt pdir
          = (.error (.keyError "user"), [.envLookup "user"]) ∧
      isOnlineRun w products
          = (.error (.keyError "user"), [.envLookup "user"]) ∧
      downloadRun w products out
          = (.error (.keyError "user"), [.envLookup "user"])) ∧
    (∀ u, w.env "user" = some u → w.env "password" = none →
      query w fp s e pt pdir = (.error (.keyError "password"),
          [.envLookup "user", .envLookup "password"]) ∧
      isOnlineRun w products = (.error (.keyError "password"),
          [.envLookup "user", .envLookup "password"]) ∧
      downloadRun w products out = (.error (.keyError "password"),
          [.envLookup "user", .envLookup "password"])) ∧
    (∀ u p, w.env "user" = some u → w.env "password" = some p →
      (query w fp s e pt pdir).2.take 3
          = [.envLookup "user", .envLookup "password", .apiSession] ∧
      (isOnlineRun w products).2.take 3
          = [.envLookup "user", .envLookup "password", .apiSession] ∧
      (downloadRun w products out).2.take 3
          = [.envLookup "user", .envLookup "password", .apiSession]) := by
  refine ⟨fun h => ?_, fun u hu hp => ?_, fun u p hu hp => ?_⟩
  · unfold query isOnlineRun downloadRun
    rw [h]
    exact ⟨rfl, rfl, rfl⟩
  · unfold query isOnlineRun downloadRun
    rw [hu, hp]
    exact ⟨rfl, rfl, rfl⟩
  · refine ⟨?_, ?_, ?_⟩
    · unfold query
      rcases hs : parseDate s with _ | d1 <;> rcases he : parseDate e with _ | d2 <;>
          simp only [hu, hp, hs, he] <;>
        first
          | rfl
          | (cases hlt : Date.lt d1 d2 <;>
              simp only [hlt, Bool.false_eq_true, if_false, if_true] <;> rfl)
    · unfold isOnlineRun
      simp only [hu, hp]
      rfl
    · unfold downloadRun
      simp only [hu, hp]
      rfl

/-- Witness for C10 at concrete worlds with unset and set credentials. -/
theorem missing_credentials_fail_first_witness :
    query wNoUser "aoi" "20190201" "20190816" none none
        = (.error (.keyError "user"), [.envLookup "user"]) ∧
    isOnlineRun wNoPass psEx = (.error (.keyError "password"),
        [.envLookup "user", .envLookup "password"]) ∧
    (downloadRun wEx psEx "/work").2.take 3
        = [.envLookup "user", .envLookup "password", .apiSession] :=
  ⟨((missing_credentials_fail_first wNoUser "aoi" "20190201" "20190816"
      none none psEx "/work").1 rfl).1,
   (((missing_credentials_fail_first wNoPass "aoi" "20190201" "20190816"
      none none psEx "/work").2.1) "alice" rfl rfl).2.1,
   (((missing_credentials_fail_first wEx "aoi" "20190201" "20190816"
      none none psEx "/work").2.2) "alice" "s3cret" rfl rfl).2.2⟩

/-- The two title groups built by the loop of `is_online` are jointly a
permutation of the OData titles of the result set. -/
theorem online_offline_perm (w : World) (ps : List ProductRecord) :
    (onlineTitles w ps ++ offlineTitles w ps).Perm
      (ps.map (fun r => (w.odata r.uuid).title)) := by
  induction ps with
  | nil => simp [onlineTitles, offlineTitles]
  | cons r rest ih =>
    simp only [onlineTitles, offlineTitles, List.filter_cons,
      List.map_cons] at ih ⊢
    cases h : (w.odata r.uuid).online
    · simp only [h, Bool.not_false, Bool.false_eq_true, if_false, if_true]
      exact List.perm_middle.trans (ih.cons _)
    · simp only [h, Bool.not_true, Bool.false_eq_true, if_false, if_true,
        List.map_cons, List.cons_append]
      exact ih.cons _

/-- Decomposition of the `is_online` trace: the online titles are printed in
order, then (possibly after a group header) the offline titles in order. -/
theorem isOnlineRun_trace_decomp (w : World) (products : List ProductRecord)
    (u p : String) (hu : w.env "user" = some u)
    (hp : w.env "password" = some p) :
    ∃ pre mid, (isOnlineRun w products).2
      = pre ++ (onlineTitles w products).map Event.printed
          ++ mid ++ (offlineTitles w products).map Event.printed := by
  unfold isOnlineRun
  simp only [hu, hp]
  split
  · next hc =>
    have h1 : offlineTitles w products = [] := by
      simp only [Bool.and_eq_true, beq_iff_eq, decide_eq_true_eq] at hc
      exact List.length_eq_zero.mp hc.1
    exact ⟨[Event.envLookup "user", Event.envLookup "password",
        Event.apiSession] ++ products.map (fun r => Event.odataCall r.uuid)
        ++ [Event.printed (allOnlineMsg (onlineTitles w products).length)],
      [], by simp [h1, List.append_assoc]⟩
  · split
    · next hc =>
      have h2 : onlineTitles w products = [] := by
        simp only [Bool.and_eq_true, beq_iff_eq, decide_eq_true_eq] at hc
        exact List.length_eq_zero.mp hc.2
      exact ⟨[], [Event.envLookup "user", Event.envLookup "password",
          Event.apiSession] ++ products.map (fun r => Event.odataCall r.uuid)
          ++ [Event.printed (allOfflineMsg (offlineTitles w products).length)],
        by simp [h2, List.append_assoc]⟩
    · exact ⟨[Event.envLookup "user", Event.envLookup "password",
          Event.apiSession] ++ products.map (fun r => Event.odataCall r.uuid)
          ++ [Event.printed (mixedMsg (onlineTitles w products).length
                (offlineTitles w products).length),
              Event.printed "Online products"],
        [Event.printed "offline products"], by simp [List.append_assoc]⟩

/-- C4: given a result set whose OData titles agree with the record titles,
`is_online` places each record's title in the group matching its reported
status, every title occurrence lands in exactly one group (counts add up
per title), the group sizes sum to the total number of records, and the
titles are printed within each group in result-set iteration order. -/
theorem is_online_partitions (w : World) (products : List ProductRecord)
    (u p : String) (hu : w.env "user" = some u)
    (hp : w.env "password" = some p)
    (htitle : ∀ r ∈ products, (w.odata r.uuid).title = r.title) :
    (∀ t, (onlineTitles w products).count t
        + (offlineTitles w products).count t
        = (products.map ProductRecord.title).count t) ∧
    ((onlineTitles w products).length + (offlineTitles w products).length
        = products.length) ∧
    (∀ r ∈ products,
        ((w.odata r.uuid).online = true →
          r.title ∈ onlineTitles w products) ∧
        ((w.odata r.uuid).online = false →
          r.title ∈ offlineTitles w products)) ∧
    (∃ pre mid, (isOnlineRun w products).2
        = pre ++ (onlineTitles w products).map Event.printed
            ++ mid ++ (offlineTitles w products).map Event.printed) := by
  have hmap : products.map (fun r => (w.odata r.uuid).title)
      = products.map ProductRecord.title := List.map_congr_left htitle
  have hperm := online_offline_perm w products
  refine ⟨fun t => ?_, ?_, fun r hr => ⟨fun h => ?_, fun h => ?_⟩,
    isOnlineRun_trace_decomp w products u p hu hp⟩
  · have hc := hperm.count_eq t
    rw [hmap] at hc
    simpa [List.count_append] using hc
  · have hl := hperm.length_eq
    simpa using hl
  · rw [← htitle r hr]
    exact List.mem_map_of_mem _ (List.mem_filter.mpr ⟨hr, by simp [h]⟩)
  · rw [← htitle r hr]
    exact List.mem_map_of_mem _ (List.mem_filter.mpr ⟨hr, by simp [h]⟩)

/-- Witness for C4 at the concrete mixed result set `psEx`. -/
theorem is_online_partitions_witness :
    (∀ t, (onlineTitles wEx psEx).count t + (offlineTitles wEx psEx).count t
        = (psEx.map ProductRecord.title).count t) ∧
    ((onlineTitles wEx psEx).length + (offlineTitles wEx psEx).length
        = psEx.length) ∧
    (∀ r ∈ psEx,
        ((wEx.odata r.uuid).online = true → r.title ∈ onlineTitles wEx psEx) ∧
        ((wEx.odata r.uuid).online = false →
          r.title ∈ offlineTitles wEx psEx)) ∧
    (∃ pre mid, (isOnlineRun wEx psEx).2
        = pre ++ (onlineTitles wEx psEx).map Event.printed
            ++ mid ++ (offlineTitles wEx psEx).map Event.printed) :=
  is_online_partitions wEx psEx "alice" "s3cret" rfl rfl (by decide)

/-- Download calls of the loop body: exactly one per online record, none for
an offline record, in iteration order. -/
theorem downloadBody_filter_isDownload (w : World) (out : String)
    (ps : List ProductRecord) :
    (downloadBody w out ps).filter Event.isDownload
      = (ps.filter (fun r => (w.odata r.uuid).online)).map
          (fun r => Event.downloadApiCall r.uuid out) := by
  induction ps with
  | nil => rfl
  | cons r rest ih =>
    simp only [downloadBody, List.filter_append, List.filter_cons, ih]
    cases h : (w.odata r.uuid).online <;>
      simp [h, Event.isDownload]

/-- OData status calls of the loop body: exactly one per record, in order. -/
theorem downloadBody_filter_isOdata (w : World) (out : String)
    (ps : List ProductRecord) :
    (downloadBody w out ps).filter Event.isOdata
      = ps.map (fun r => Event.odataCall r.uuid) := by
  induction ps with
  | nil => rfl
  | cons r rest ih =>
    simp only [downloadBody]
    cases h : (w.odata r.uuid).online <;>
      simp [h, Event.isOdata, List.filter_append, ih]

/-- An offline record's skip notice is printed by the loop body. -/
theorem downloadBody_skip_mem (w : World) (out : String)
    (ps : List ProductRecord) (r : ProductRecord) (hr : r ∈ ps)
    (h : (w.odata r.uuid).online = false) :
    Event.printed (skipNoticeMsg (w.odata r.uuid).title)
      ∈ downloadBody w out ps := by
  induction ps with
  | nil => cases hr
  | cons a rest ih =>
    rcases List.mem_cons.mp hr with rfl | hr'
    · simp [downloadBody, h]
    · simp only [downloadBody, List.mem_append]
      exact Or.inr (ih hr')

/-- An online record's notice is printed by the loop body. -/
theorem downloadBody_online_mem (w : World) (out : String)
    (ps : List ProductRecord) (r : ProductRecord) (hr : r ∈ ps)
    (h : (w.odata r.uuid).online = true) :
    Event.printed (onlineNoticeMsg (w.odata r.uuid).title)
      ∈ downloadBody w out ps := by
  induction ps with
  | nil => cases hr
  | cons a rest ih =>
    rcases List.mem_cons.mp hr with rfl | hr'
    · simp [downloadBody, h]
    · simp only [downloadBody, List.mem_append]
      exact Or.inr (ih hr')

/-- C5: `download` iterates the records sequentially (one status call per
record, in order); an offline record gets a printed skip notice and no
download call, and each online record triggers exactly one download call,
in iteration order. -/
theorem download_sequential_behavior (w : World)
    (products : List ProductRecord) (out : String) (u p : String)
    (hu : w.env "user" = some u) (hp : w.env "password" = some p) :
    (downloadRun w products out).1 = .ok () ∧
    (downloadRun w products out).2.filter Event.isOdata
        = products.map (fun r => Event.odataCall r.uuid) ∧
    (downloadRun w products out).2.filter Event.isDownload
        = (products.filter (fun r => (w.odata r.uuid).online)).map
            (fun r => Event.downloadApiCall r.uuid out) ∧
    (∀ r ∈ products, (w.odata r.uuid).online = false →
        Event.printed (skipNoticeMsg (w.odata r.uuid).title)
          ∈ (downloadRun w products out).2) ∧
    (∀ r ∈ products, (w.odata r.uuid).online = true →
        Event.printed (onlineNoticeMsg (w.odata r.uuid).title)
          ∈ (downloadRun w products out).2) := by
  have htr : (downloadRun w products out).2
      = [Event.envLookup "user", Event.envLookup "password",
          Event.apiSession] ++ downloadBody w out products := by
    unfold downloadRun
    simp only [hu, hp]
  have hres : (downloadRun w products out).1 = .ok () := by
    unfold downloadRun
    simp only [hu, hp]
  refine ⟨hres, ?_, ?_, fun r hr h => ?_, fun r hr h => ?_⟩
  · rw [htr]
    simp [downloadBody_filter_isOdata, Event.isOdata]
  · rw [htr]
    simp [downloadBody_filter_isDownload, Event.isDownload]
  · rw [htr]
    exact List.mem_append_right _ (downloadBody_skip_mem w out products r hr h)
  · rw [htr]
    exact List.mem_append_right _
      (downloadBody_online_mem w out products r hr h)

/-- Witness for C5 at the concrete mixed result set `psEx`. -/
theorem download_sequential_behavior_witness :
    (downloadRun wEx psEx "/work").1 = .ok () ∧
    (downloadRun wEx psEx "/work").2.filter Event.isOdata
        = psEx.map (fun r => Event.odataCall r.uuid) ∧
    (downloadRun wEx psEx "/work").2.filter Event.isDownload
        = (psEx.filter (fun r => (wEx.odata r.uuid).online)).map
            (fun r => Event.downloadApiCall r.uuid "/work") ∧
    (∀ r ∈ psEx, (wEx.odata r.uuid).online = false →
        Event.printed (skipNoticeMsg (wEx.odata r.uuid).title)
          ∈ (downloadRun wEx psEx "/work").2) ∧
    (∀ r ∈ psEx, (wEx.odata r.uuid).online = true →
        Event.printed (onlineNoticeMsg (wEx.odata r.uuid).title)
          ∈ (downloadRun wEx psEx "/work").2) :=
  download_sequential_behavior wEx psEx "/work" "alice" "s3cret" rfl rfl

/-- C6: on an empty result set, `is_online` performs zero per-item status
calls and prints the zero-count summary, and `download` performs zero
iterations and issues no download call. -/
theorem empty_resultset_zero_work (w : World) (out : String) (u p : String)
    (hu : w.env "user" = some u) (hp : w.env "password" = some p) :
    isOnlineRun w [] = (.ok (), [.envLookup "user", .envLookup "password",
        .apiSession, .printed (mixedMsg 0 0), .printed "Online products",
        .printed "offline products"]) ∧
    mixedMsg 0 0 = "0 online and 0 offline products have been found" ∧
    (isOnlineRun w []).2.filter Event.isOdata = [] ∧
    downloadRun w [] out
        = (.ok (), [.envLookup "user", .envLookup "password",
            .apiSession]) ∧
    (downloadRun w [] out).2.filter Event.isDownload = [] := by
  unfold isOnlineRun downloadRun
  simp only [hu, hp]
  exact ⟨rfl, rfl, by rfl, rfl, by rfl⟩

/-- Witness for C6 at a concrete world. -/
theorem empty_resultset_zero_work_witness :
    isOnlineRun wEx [] = (.ok (), [.envLookup "user", .envLookup "password",
        .apiSession, .printed (mixedMsg 0 0), .printed "Online products",
        .printed "offline products"]) ∧
    mixedMsg 0 0 = "0 online and 0 offline products have been found" ∧
    (isOnlineRun wEx []).2.filter Event.isOdata = [] ∧
    downloadRun wEx [] "/work"
        = (.ok (), [.envLookup "user", .envLookup "password",
            .apiSession]) ∧
    (downloadRun wEx [] "/work").2.filter Event.isDownload = [] :=
  empty_resultset_zero_work wEx "/work" "alice" "s3cret" rfl rfl

/-- When every supplied filter value is a nonempty string, the four branch
guards of `query` coincide with presence of the filters, and the attached
keywords are exactly the present ones. -/
theorem queryKeywords_eq_spec (pt pdir : Option String)
    (hpt : ∀ v, pt = some v → v ≠ "")
    (hpd : ∀ v, pdir = some v → v ≠ "") :
    queryKeywords pt pdir = specSearchKeywords pt pdir := by
  cases pt with
  | none =>
    cases pdir with
    | none => rfl
    | some s2 =>
      have h2 : (s2 != "") = true := by
        simpa [bne_iff_ne] using hpd s2 rfl
      simp [queryKeywords, specSearchKeywords, truthy, h2]
  | some s1 =>
    have h1 : (s1 != "") = true := by
      simpa [bne_iff_ne] using hpt s1 rfl
    cases pdir with
    | none =>
      simp [queryKeywords, specSearchKeywords, truthy, h1]
    | some s2 =>
      have h2 : (s2 != "") = true := by
        simpa [bne_iff_ne] using hpd s2 rfl
      simp [queryKeywords, specSearchKeywords, truthy, h1, h2]

/-- C2 counterexample: with no product type and the (present) empty-string
pass direction, the branch guards, which test Python truthiness rather than
presence, fall through to the "both filters" branch: the single search call
also carries a `producttype` keyword, so it does not carry exactly the
filter keywords that are present. -/
theorem query_filter_keywords_cex :
    (query wEx "aoi" "20190201" "20190816" none (some "")).2.filter
        Event.isSearch
      = [Event.searchCall "POLYGON(aoi)" ("20190201", "20190816")
          [("platformname", some "Sentinel-1"), ("producttype", none),
            ("orbitdirection", some "")]] ∧
    queryKeywords none (some "") ≠ specSearchKeywords none (some "") :=
  ⟨by decide, by decide⟩

/-- C2 (amended): for every combination of the two optional filters whose
supplied values are nonempty strings, `query` takes exactly one of the four
mutually exclusive branches, issues exactly one remote search call carrying
exactly the filter keywords that are present, and prints the total count of
matching records. -/
theorem query_one_search_with_present_filters (w : World)
    (fp s e : String) (pt pdir : Option String)
    (hpt : ∀ v, pt = some v → v ≠ "") (hpd : ∀ v, pdir = some v → v ≠ "")
    (u p : String) (hu : w.env "user" = some u)
    (hp : w.env "password" = some p) (d1 d2 : Date)
    (h1 : parseDate s = some d1) (h2 : parseDate e = some d2)
    (hord : Date.lt d1 d2 = true) :
    (query w fp s e pt pdir).1
        = .ok (w.search (w.wkt fp) (s, e) (queryKeywords pt pdir)) ∧
    queryKeywords pt pdir = specSearchKeywords pt pdir ∧
    (query w fp s e pt pdir).2.filter Event.isSearch
        = [.searchCall (w.wkt fp) (s, e) (queryKeywords pt pdir)] ∧
    Event.printed (countMsg (w.search (w.wkt fp) (s, e)
        (queryKeywords pt pdir)).length) ∈ (query w fp s e pt pdir).2 := by
  have hk := queryKeywords_eq_spec pt pdir hpt hpd
  unfold query
  simp only [hu, hp, h1, h2, hord, eq_self_iff_true, if_true]
  refine ⟨by trivial, hk, rfl, ?_⟩
  simp [List.mem_append]

/-- Witness for C2 (amended) with a present product type and absent pass
direction. -/
theorem query_one_search_with_present_filters_witness :
    (query wEx "aoi" "20190201" "20190816" (some "GRD") none).1
        = .ok (wEx.search (wEx.wkt "aoi") ("20190201", "20190816")
            (queryKeywords (some "GRD") none)) ∧
    queryKeywords (some "GRD") none = specSearchKeywords (some "GRD") none ∧
    (query wEx "aoi" "20190201" "20190816" (some "GRD") none).2.filter
        Event.isSearch
        = [.searchCall (wEx.wkt "aoi") ("20190201", "20190816")
            (queryKeywords (some "GRD") none)] ∧
    Event.printed (countMsg (wEx.search (wEx.wkt "aoi")
        ("20190201", "20190816") (queryKeywords (some "GRD") none)).length)
      ∈ (query wEx "aoi" "20190201" "20190816" (some "GRD") none).2 :=
  query_one_search_with_present_filters wEx "aoi" "20190201" "20190816"
    (some "GRD") none (fun v hv => by cases hv; decide)
    (fun v hv => nomatch hv) "alice" "s3cret" rfl rfl
    ⟨2019, 2, 1⟩ ⟨2019, 8, 16⟩ (by decide) (by decide) (by decide)

/-- On a nonempty invalid filter value (with footprint and dates supplied),
the filter chain of `__main__` prints one invalid-value message and leaves
`products` unbound. -/
theorem validateAndQuery_invalid_filter (w : World) (a : Args)
    (hf : truthy a.footprint = true) (hs : truthy a.startDate = true)
    (he : truthy a.endDate = true)
    (hinv : (truthy a.productType = true
        ∧ validProd (a.productType.getD "") = false)
      ∨ (truthy a.passDirection = true
        ∧ validOrbit (a.passDirection.getD "") = false)) :
    ∃ m, validateAndQuery w a = (.ok none, [Event.printed m]) := by
  rcases hinv with ⟨h1, h2⟩ | ⟨h1, h2⟩
  · cases hpd : truthy a.passDirection
    · exact ⟨invalidProdMsg (a.productType.getD ""),
        by simp [validateAndQuery, hf, hs, he, h1, h2, hpd]⟩
    · exact ⟨invalidComboMsg,
        by simp [validateAndQuery, hf, hs, he, h1, h2, hpd]⟩
  · cases hpt : truthy a.productType
    · exact ⟨invalidOrbitMsg (a.passDirection.getD ""),
        by simp [validateAndQuery, hf, hs, he, h1, h2, hpt]⟩
    · exact ⟨invalidComboMsg,
        by simp [validateAndQuery, hf, hs, he, h1, h2, hpt]⟩

/-- C3 counterexample: the empty string is an invalid product-type value
(not in the enumeration), yet on it the program prints no message and binds
the result set: the truthiness-based chain falls through to the no-filter
query branch. -/
theorem invalid_filter_unbound_products_cex :
    validProd "" = false ∧
    (validateAndQuery wEx { argsBase with productType := some "" }).1
        = .ok (some psEx) ∧
    (validateAndQuery wEx
        { argsBase with productType := some "" }).2.filter Event.isSearch
      ≠ [] :=
  ⟨by decide, rfl, by decide⟩

/-- C3 (amended): when an invalid nonempty product-type or pass-direction
value is supplied (footprint and dates present), the program prints a
message and leaves the result set unbound; a subsequent online-check or
download stage then fails with a `NameError` — later than the validation
step, which itself succeeds — and with no further observable effect. -/
theorem invalid_filter_unbound_products (w : World) (cwd : String) (a : Args)
    (hf : truthy a.footprint = true) (hs : truthy a.startDate = true)
    (he : truthy a.endDate = true)
    (hinv : (truthy a.productType = true
        ∧ validProd (a.productType.getD "") = false)
      ∨ (truthy a.passDirection = true
        ∧ validOrbit (a.passDirection.getD "") = false)) :
    ∃ m, validateAndQuery w a = (.ok none, [Event.printed m]) ∧
      (mainRun w cwd a).2 = [Event.printed m] ∧
      ((a.online || a.download) = true →
        (mainRun w cwd a).1 = .error (.nameError "products")) ∧
      ((a.online || a.download) = false →
        (mainRun w cwd a).1 = .ok ()) := by
  obtain ⟨m, hm⟩ := validateAndQuery_invalid_filter w a hf hs he hinv
  refine ⟨m, hm, ?_, fun hreq => ?_, fun hreq => ?_⟩ <;>
    cases ho : a.online <;> cases hd : a.download <;>
      cases hod : truthy a.outdir <;>
      simp_all [mainRun, hm]

/-- Witness for C3 (amended) at a concrete invalid product type. -/
theorem invalid_filter_unbound_products_witness :
    ∃ m, validateAndQuery wEx
        { argsBase with productType := some "XYZ", online := true }
        = (.ok none, [Event.printed m]) ∧
      (mainRun wEx "/work"
          { argsBase with productType := some "XYZ", online := true }).2
        = [Event.printed m] ∧
      ((({ argsBase with productType := some "XYZ", online := true } : Args).online
          || ({ argsBase with productType := some "XYZ", online := true } : Args).download) = true →
        (mainRun wEx "/work"
            { argsBase with productType := some "XYZ", online := true }).1
          = .error (.nameError "products")) ∧
      ((({ argsBase with productType := some "XYZ", online := true } : Args).online
          || ({ argsBase with productType := some "XYZ", online := true } : Args).download) = false →
        (mainRun wEx "/work"
            { argsBase with productType := some "XYZ", online := true }).1
          = .ok ()) :=
  invalid_filter_unbound_products wEx "/work"
    { argsBase with productType := some "XYZ", online := true }
    (by decide) (by decide) (by decide) (Or.inl ⟨by decide, by decide⟩)

/-- C7 counterexample: with the pass direction supplied as the empty string
— which is not one of ascending/descending — the invocation falls through
to the no-filter branch and a remote search call is issued. -/
theorem invalid_direction_reaches_query_cex :
    validOrbit "" = false ∧
    (mainRun wEx "/work"
        { argsBase with passDirection := some "" }).2.filter Event.isSearch
      = [Event.searchCall "POLYGON(aoi/AOI.geojson)"
          ("20190201", "20190816") [("platformname", some "Sentinel-1")]] :=
  ⟨by decide, by decide⟩

/-- C7 (amended): an invocation supplying a nonempty product type not in
GRD/SLC/OCN, or a nonempty pass direction not in ascending/descending,
never invokes `query`: no remote search call appears in the trace. -/
theorem invalid_filters_never_reach_query (w : World) (cwd : String)
    (a : Args)
    (hinv : (truthy a.productType = true
        ∧ validProd (a.productType.getD "") = false)
      ∨ (truthy a.passDirection = true
        ∧ validOrbit (a.passDirection.getD "") = false)) :
    (mainRun w cwd a).2.filter Event.isSearch = [] := by
  cases hf : truthy a.footprint
  · simp [mainRun, validateAndQuery, hf]
  · cases hs : truthy a.startDate
    · simp [mainRun, validateAndQuery, hf, hs]
    · cases he : truthy a.endDate
      · simp [mainRun, validateAndQuery, hf, hs, he]
      · obtain ⟨m, hm⟩ := validateAndQuery_invalid_filter w a hf hs he hinv
        cases ho : a.online <;> cases hd : a.download <;>
          cases hod : truthy a.outdir <;>
          simp_all [mainRun, hm, Event.isSearch]

/-- Witness for C7 (amended) at a concrete invalid pass direction. -/
theorem invalid_filters_never_reach_query_witness :
    (mainRun wEx "/work"
        { argsBase with passDirection := some "north", download := true }).2.filter
        Event.isSearch = [] :=
  invalid_filters_never_reach_query wEx "/work"
    { argsBase with passDirection := some "north", download := true }
    (Or.inr ⟨by decide, by decide⟩)

/-- C8: an invocation missing the footprint, the start date or the end date
terminates through the CLI parser's error path with a user-facing message,
with an empty trace: before any network call or query. -/
theorem missing_required_args_error (w : World) (cwd : String) (a : Args) :
    (a.footprint = none →
      mainRun w cwd a = (.error (.systemExit footprintErrMsg), [])) ∧
    (truthy a.footprint = true → a.startDate = none →
      mainRun w cwd a = (.error (.systemExit dateErrMsg), [])) ∧
    (truthy a.footprint = true → a.endDate = none →
      mainRun w cwd a = (.error (.systemExit dateErrMsg), [])) := by
  have htn : truthy none = false := rfl
  refine ⟨fun h => ?_, fun hf h => ?_, fun hf h => ?_⟩
  · simp [mainRun, validateAndQuery, h, htn]
  · simp [mainRun, validateAndQuery, hf, h, htn]
  · simp [mainRun, validateAndQuery, hf, h, htn]

/-- Witness for C8 at three concrete deficient invocations. -/
theorem missing_required_args_error_witness :
    mainRun wEx "/work" argsNoFp
        = (.error (.systemExit footprintErrMsg), []) ∧
    mainRun wEx "/work" argsNoStart
        = (.error (.systemExit dateErrMsg), []) ∧
    mainRun wEx "/work" argsNoEnd
        = (.error (.systemExit dateErrMsg), []) :=
  ⟨(missing_required_args_error wEx "/work" argsNoFp).1 rfl,
   (missing_required_args_error wEx "/work" argsNoStart).2.1 (by decide) rfl,
   (missing_required_args_error wEx "/work" argsNoEnd).2.2 (by decide) rfl⟩

/-- With the credentials set, `is_online` itself never fails. -/
theorem isOnlineRun_ok (w : World) (ps : List ProductRecord) (u p : String)
    (hu : w.env "user" = some u) (hp : w.env "password" = some p) :
    (isOnlineRun w ps).1 = .ok () := by
  unfold isOnlineRun
  simp only [hu, hp]

/-- C9 counterexample: with `--download` set and `--outdir` given as the
empty string, the downloader runs with the current working directory, not
with the given path. -/
theorem outdir_empty_string_cex :
    (mainRun wEx "/work"
        { argsBase with download := true, outdir := some "" }).2.filter
        Event.isDownload
      = [Event.downloadApiCall "uuid-1" "/work"] ∧ ("/work" : String) ≠ "" :=
  ⟨by decide, by decide⟩

/-- C9 (amended): when the run reaches the download stage with a bound
result set and `--download` set, a falsy `--outdir` (absent or empty) makes
the downloader run with the current working directory as output path, and a
nonempty `--outdir` makes it run with exactly that path. -/
theorem download_stage_output_path (w : World) (cwd : String) (a : Args)
    (ps : List ProductRecord) (tr : List Event) (u p : String)
    (hu : w.env "user" = some u) (hp : w.env "password" = some p)
    (hq : validateAndQuery w a = (.ok (some ps), tr))
    (hd : a.download = true) :
    (truthy a.outdir = false →
      ∃ pre, (mainRun w cwd a).2 = pre ++ (downloadRun w ps cwd).2 ∧
        (mainRun w cwd a).1 = (downloadRun w ps cwd).1) ∧
    (∀ o, a.outdir = some o → o ≠ "" →
      ∃ pre, (mainRun w cwd a).2 = pre ++ (downloadRun w ps o).2 ∧
        (mainRun w cwd a).1 = (downloadRun w ps o).1) := by
  rcases hio : isOnlineRun w ps with ⟨r2, tr2⟩
  have hr2 : r2 = .ok () := by
    have := isOnlineRun_ok w ps u p hu hp
    rw [hio] at this
    exact this
  subst hr2
  constructor
  · intro ho
    cases honline : a.online
    · exact ⟨tr, by simp [mainRun, hq, honline, hd, ho],
        by simp [mainRun, hq, honline, hd, ho]⟩
    · exact ⟨tr ++ tr2,
        by simp [mainRun, hq, hio, honline, hd, ho, List.append_assoc],
        by simp [mainRun, hq, hio, honline, hd, ho]⟩
  · intro o hoe hne
    have ho : truthy a.outdir = true := by
      simp [hoe, truthy, bne_iff_ne, hne]
    have hg : a.outdir.getD "" = o := by simp [hoe]
    cases honline : a.online
    · exact ⟨tr, by simp [mainRun, hq, honline, hd, ho, hg],
        by simp [mainRun, hq, honline, hd, ho, hg]⟩
    · exact ⟨tr ++ tr2,
        by simp [mainRun, hq, hio, honline, hd, ho, hg, List.append_assoc],
        by simp [mainRun, hq, hio, honline, hd, ho, hg]⟩

/-- Witness for C9 (amended): download flag set, no `--outdir`; the download
stage runs with the working directory. -/
theorem download_stage_output_path_witness :
    ∃ pre, (mainRun wEx "/work" argsDownload).2
        = pre ++ (downloadRun wEx psEx "/work").2 ∧
      (mainRun wEx "/work" argsDownload).1
        = (downloadRun wEx psEx "/work").1 :=
  (download_stage_output_path wEx "/work" argsDownload psEx trQuery
      "alice" "s3cret" rfl rfl rfl rfl).1 rfl

end Sentinel1
